import Mathlib

/-
Verification of the urban-classifier specification.

The repository ships the Python demo drivers (src/examples); the core
classification engine (the urban_classifier package: raster store, coordinate
transformer, taxonomy table, validator and classification engine) is not part
of the source tree, so those components are modelled here from the
specification (sections 3 to 8 of spec.md) and every statement about them is a
statement about that spec-derived model.  The path-search and error-swallowing
logic of the demo drivers is translated directly from
src/examples/heathrow_demo.py and src/examples/single_point_demo.py.
-/

set_option maxRecDepth 4000

deriving instance DecidableEq for Except

/-- Broad category assigned to every LCZ class by the Taxonomy Table. -/
inductive SimpleClass
  | Urban
  | Suburban
  | Rural
deriving DecidableEq

/-- One row of the classification legend: integer class code, display name,
broad category. -/
structure LegendEntry where
  code : Int
  name : String
  category : SimpleClass
deriving DecidableEq

/-- Modelled from the spec: the Taxonomy Table (spec 4.3), a fixed,
hand-curated legend of seventeen classes, each with a unique integer code, a
display name and exactly one of three broad categories.  The concrete
(code, name, category) rows are the ones observable in the repository
(spec section 8 examples and the demo scripts); the four classes the
repository never prints (codes 4, 5, 7 and 16) are filled in from the
standard WUDAPT LCZ legend that the spec names. -/
def lczLegend : List LegendEntry :=
  [ ⟨1, "Compact high-rise", .Urban⟩
  , ⟨2, "Compact midrise", .Urban⟩
  , ⟨3, "Compact low-rise", .Urban⟩
  , ⟨4, "Open high-rise", .Urban⟩
  , ⟨5, "Open midrise", .Urban⟩
  , ⟨6, "Open low-rise", .Urban⟩
  , ⟨7, "Lightweight low-rise", .Urban⟩
  , ⟨8, "Large low-rise", .Suburban⟩
  , ⟨9, "Sparsely built", .Suburban⟩
  , ⟨10, "Heavy industry", .Suburban⟩
  , ⟨11, "Dense trees", .Rural⟩
  , ⟨12, "Scattered trees", .Rural⟩
  , ⟨13, "Bush, scrub", .Rural⟩
  , ⟨14, "Low plants", .Rural⟩
  , ⟨15, "Bare rock or paved", .Rural⟩
  , ⟨16, "Bare soil or sand", .Rural⟩
  , ⟨17, "Water", .Rural⟩ ]

/-- Modelled from the spec: `lookup(code) -> (name, category) | Error`
(spec 4.3); `none` models the `UnknownCode` failure. -/
def lookupLcz (c : Int) : Option (String × SimpleClass) :=
  match lczLegend.find? (fun e => e.code = c) with
  | some e => some (e.name, e.category)
  | none => none

/-- Display string of a broad category, as it appears in the
`simple_class` output column. -/
def categoryName : SimpleClass → String
  | .Urban => "Urban"
  | .Suburban => "Suburban"
  | .Rural => "Rural"

/-- Modelled from the spec: `all_entries()` (spec 4.3), the ordered sequence
of (code, name, category) triples backing the legend-introspection query.
It takes no raster argument: it is usable without opening a raster file and,
being a constant of the program, returns the same sequence on every call. -/
def all_entries : List (Int × String × String) :=
  lczLegend.map (fun e => (e.code, e.name, categoryName e.category))

/-- Shape of the dictionary returned by
`PyUrbanClassifier.get_lcz_info()` in the demo scripts: three parallel
lists. -/
structure LczInfo where
  codes : List Int
  names : List String
  categories : List String
deriving DecidableEq

/-- Modelled from the spec: the legend-introspection accessor
`get_lcz_info` used by the demo scripts (spec section 6, legend
introspection).  A constant: no raster is involved. -/
def get_lcz_info : LczInfo :=
  ⟨ lczLegend.map (fun e => e.code)
  , lczLegend.map (fun e => e.name)
  , lczLegend.map (fun e => categoryName e.category) ⟩

/-- C7: the legend introspection query (get_lcz_info / all_entries) is a
constant of the program, computed without any raster: it returns the full
ordered seventeen-entry sequence of (code, name, category) triples, the
parallel lists of get_lcz_info agree with it, and every entry round-trips
through the lookup function.  Being closed definitions with no raster or
state argument, both return the identical value on every call. -/
theorem legend_introspection_constant :
    all_entries =
      [ (1, "Compact high-rise", "Urban")
      , (2, "Compact midrise", "Urban")
      , (3, "Compact low-rise", "Urban")
      , (4, "Open high-rise", "Urban")
      , (5, "Open midrise", "Urban")
      , (6, "Open low-rise", "Urban")
      , (7, "Lightweight low-rise", "Urban")
      , (8, "Large low-rise", "Suburban")
      , (9, "Sparsely built", "Suburban")
      , (10, "Heavy industry", "Suburban")
      , (11, "Dense trees", "Rural")
      , (12, "Scattered trees", "Rural")
      , (13, "Bush, scrub", "Rural")
      , (14, "Low plants", "Rural")
      , (15, "Bare rock or paved", "Rural")
      , (16, "Bare soil or sand", "Rural")
      , (17, "Water", "Rural") ] ∧
    get_lcz_info.codes = all_entries.map (fun e => e.1) ∧
    get_lcz_info.names = all_entries.map (fun e => e.2.1) ∧
    get_lcz_info.categories = all_entries.map (fun e => e.2.2) ∧
    lczLegend.all
      (fun e => decide (lookupLcz e.code = some (e.name, e.category))) = true := by
  decide

/-- Errors of the Raster Store open operation (spec 4.1). -/
inductive OpenError
  | notFound
  | invalidFormat
  | tooSmall
deriving DecidableEq

/-- Per-row coordinate-resolution errors (spec 4.1 and 4.2). -/
inductive CoordError
  | outOfCoverage
  | projectionError
deriving DecidableEq

/-- Validator errors (spec 4.4). -/
inductive ValError
  | missingColumn (c : String)
  | typeMismatch (c : String)
deriving DecidableEq

/-- Batch-aborting failures of a whole classification call (spec 7): a raster
open failure or an input-schema validation failure. -/
inductive BatchError
  | openFailure (e : OpenError)
  | validation (e : ValError)
deriving DecidableEq

/-- The six affine geotransform coefficients mapping pixel (row, column)
indices to projected coordinates: x = a + b*col + c*row and
y = d + e*col + f*row. -/
structure GeoTransform where
  a : ℚ
  b : ℚ
  c : ℚ
  d : ℚ
  e : ℚ
  f : ℚ
deriving DecidableEq

/-- Modelled from the spec: a raster file on disk as the Raster Store sees it
before opening (spec 4.1 and section 6): existence, whether it parses as a
single-band categorical raster, declared header dimensions and bit depth,
actual byte length, geotransform, reprojection function of its native CRS,
no-data sentinel and pixel contents.  Coordinates are modelled as rationals
and the reprojection from geographic degrees into the native CRS as a pure
function returning `none` on `ProjectionError`, exactly the failure the spec
assigns to it. -/
structure RasterFile where
  present : Bool
  singleBand : Bool
  width : Nat
  height : Nat
  bytesPerPixel : Nat
  actualByteSize : Nat
  gt : GeoTransform
  reproject : ℚ → ℚ → Option (ℚ × ℚ)
  noData : Int
  pix : Nat → Nat → Int

/-- Modelled from the spec: the RasterHandle of the data model (spec 3),
the part of an opened raster the engine reads. -/
structure RasterHandle where
  width : Nat
  height : Nat
  gt : GeoTransform
  reproject : ℚ → ℚ → Option (ℚ × ℚ)
  noData : Int
  pix : Nat → Nat → Int

/-- Modelled from the spec: the checks `open` performs, in the order the spec
lists them (spec 4.1): `NotFound` if the path does not exist, `InvalidFormat`
if the file cannot be parsed as a single-band categorical raster, and
`TooSmall` if the actual byte length is below the size implied by the declared
dimensions times the bit depth. -/
def openCheck (f : RasterFile) : Except OpenError Unit :=
  if f.present = false then .error .notFound
  else if f.singleBand = false then .error .invalidFormat
  else if f.actualByteSize < f.width * f.height * f.bytesPerPixel then .error .tooSmall
  else .ok ()

/-- The handle a successful open yields for a raster file. -/
def toHandle (f : RasterFile) : RasterHandle :=
  ⟨f.width, f.height, f.gt, f.reproject, f.noData, f.pix⟩

/-- Modelled from the spec: `open(path) -> RasterHandle | Error`
(spec 4.1). -/
def openRaster (f : RasterFile) : Except OpenError RasterHandle :=
  match openCheck f with
  | .error e => .error e
  | .ok _ => .ok (toHandle f)

/-- Truncation toward zero of a rational, the rounding the Coordinate
Transformer applies to fractional pixel coordinates (spec 4.2, nearest
enclosing pixel, no interpolation). -/
def ratTrunc (q : ℚ) : ℤ :=
  Int.tdiv q.num (q.den : ℤ)

/-- Modelled from the spec: `to_pixel(lon, lat) -> (row, col) | Error`
(spec 4.2).  Step 1 reprojects geographic degrees into the raster CRS
(`ProjectionError` when the point has no representation there), step 2 applies
the inverse of the affine geotransform and truncates toward zero, step 3
bounds-checks against the raster dimensions (`OutOfCoverage` outside). -/
def gtDet (g : GeoTransform) : ℚ :=
  g.b * g.f - g.c * g.e

/-- Column index obtained by inverting the affine geotransform at projected
point (x, y) and truncating toward zero. -/
def pixCol (h : RasterHandle) (x y : ℚ) : ℤ :=
  ratTrunc ((h.gt.f * (x - h.gt.a) - h.gt.c * (y - h.gt.d)) / gtDet h.gt)

/-- Row index obtained by inverting the affine geotransform at projected
point (x, y) and truncating toward zero. -/
def pixRow (h : RasterHandle) (x y : ℚ) : ℤ :=
  ratTrunc ((h.gt.b * (y - h.gt.d) - h.gt.e * (x - h.gt.a)) / gtDet h.gt)

def toPixel (h : RasterHandle) (lon lat : ℚ) : Except CoordError (Nat × Nat) :=
  match h.reproject lon lat with
  | none => .error .projectionError
  | some (x, y) =>
    if 0 ≤ pixRow h x y ∧ pixRow h x y < (h.height : ℤ) ∧
        0 ≤ pixCol h x y ∧ pixCol h x y < (h.width : ℤ) then
      .ok ((pixRow h x y).toNat, (pixCol h x y).toNat)
    else
      .error .outOfCoverage

/-- Outcome of sampling one pixel (spec 4.1): a class code, the legitimate
`NoData` outcome when the pixel equals the no-data sentinel, or the
`OutOfCoverage` error for an out-of-bounds index. -/
inductive SampleOutcome
  | data (c : Int)
  | noData
  | outOfBounds
deriving DecidableEq

/-- Modelled from the spec: `sample(row, col) -> ClassCode | NoData`
(spec 4.1).  An index at or beyond a dimension is the `OutOfCoverage` error;
a pixel equal to the declared no-data sentinel is the distinct, non-error
`NoData` outcome. -/
def sample (h : RasterHandle) (row col : Nat) : SampleOutcome :=
  if h.height ≤ row ∨ h.width ≤ col then .outOfBounds
  else if h.pix row col = h.noData then .noData
  else .data (h.pix row col)

/-- Modelled from the spec: one caller-supplied input row (spec 3,
StationRecord): identifier, longitude and latitude in degrees, and free-text
metadata columns passed through unchanged. -/
structure StationRecord where
  station_id : String
  longitude : ℚ
  latitude : ℚ
  passthrough : List (String × String)
deriving DecidableEq

/-- Column types the Validator distinguishes (spec 4.4): coordinate columns
must be numeric, the identifier must be a scalar comparable type, and a
nested column is neither. -/
inductive ColType
  | text
  | number
  | nested
deriving DecidableEq

/-- Whether a column type is an acceptable scalar identifier type. -/
def scalarType : ColType → Bool
  | .text => true
  | .number => true
  | .nested => false

/-- Modelled from the spec: the input table (spec section 6): a schema of
named, typed columns, and the station records read from it. -/
structure Table where
  columns : List (String × ColType)
  rows : List StationRecord

/-- The type of the named column, or `none` when the table has no column of
that name. -/
def findCol (t : Table) (name : String) : Option ColType :=
  (t.columns.find? (fun col => col.1 = name)).map (fun col => col.2)

/-- Modelled from the spec:
`validate(table, id_column, lon_column, lat_column) -> Ok | Error`
(spec 4.4): `MissingColumn` if any of the three named columns is absent,
`TypeMismatch` if a coordinate column is not numeric or the identifier column
is not scalar; row count and coordinate ranges are not checked. -/
def validate (t : Table) (idc lonc latc : String) : Except ValError Unit :=
  match findCol t idc with
  | none => .error (.missingColumn idc)
  | some idTy =>
    match findCol t lonc with
    | none => .error (.missingColumn lonc)
    | some lonTy =>
      match findCol t latc with
      | none => .error (.missingColumn latc)
      | some latTy =>
        if scalarType idTy = false then .error (.typeMismatch idc)
        else if lonTy ≠ ColType.number then .error (.typeMismatch lonc)
        else if latTy ≠ ColType.number then .error (.typeMismatch latc)
        else .ok ()

/-- Unresolved markers carried in the `lcz_code` output column (spec 4.5 and
section 7): the two coordinate-resolution failures, the no-data sample, and a
class code that failed the Taxonomy lookup — four distinct, per-row,
non-fatal outcomes. -/
inductive Marker
  | outOfCoverage
  | projectionError
  | noData
  | unknownCode (c : Int)
deriving DecidableEq

/-- The `lcz_code` output column: an integer class code or an unresolved
marker (spec section 6, output table schema). -/
inductive CodeField
  | code (c : Int)
  | unresolved (m : Marker)
deriving DecidableEq

/-- Provenance flag of an output row: raster-derived, override, or
unresolved (spec section 6). -/
inductive Provenance
  | raster
  | override
  | unresolved
deriving DecidableEq

/-- Modelled from the spec: one output row (spec 3, ClassificationResult):
the station fields, the resolved code or unresolved marker, name, category
and provenance. -/
structure ClassificationResult where
  station_id : String
  longitude : ℚ
  latitude : ℚ
  passthrough : List (String × String)
  lcz_code : CodeField
  lcz_name : String
  simple_class : String
  provenance : Provenance
deriving DecidableEq

/-- Marker recorded for a coordinate-resolution failure. -/
def markerOf : CoordError → Marker
  | .outOfCoverage => .outOfCoverage
  | .projectionError => .projectionError

/-- Output row for a station whose classification did not resolve: the code
column carries the marker, name and category are left empty, provenance is
unresolved (spec 4.5 step 2). -/
def unresolvedRow (r : StationRecord) (m : Marker) : ClassificationResult :=
  { station_id := r.station_id
  , longitude := r.longitude
  , latitude := r.latitude
  , passthrough := r.passthrough
  , lcz_code := .unresolved m
  , lcz_name := ""
  , simple_class := ""
  , provenance := .unresolved }

/-- Output row for a station that resolved to class code `c` with provenance
`p`: name and category come from the Taxonomy Table; a code that fails the
lookup is a per-row error surfaced as an unknown-code marker (spec 4.5
step 5). -/
def resolveCode (r : StationRecord) (p : Provenance) (c : Int) : ClassificationResult :=
  match lookupLcz c with
  | some nc =>
    { station_id := r.station_id
    , longitude := r.longitude
    , latitude := r.latitude
    , passthrough := r.passthrough
    , lcz_code := .code c
    , lcz_name := nc.1
    , simple_class := categoryName nc.2
    , provenance := p }
  | none => unresolvedRow r (.unknownCode c)

/-- Override lookup: the caller-supplied mapping from station identifier to a
manual class code (spec 3, OverrideMap). -/
def lookupOverride (ov : List (String × Int)) (sid : String) : Option Int :=
  (ov.find? (fun o => o.1 = sid)).map (fun o => o.2)

/-- Override merge (spec 4.5 step 4): `base` is what the raster produced at
the station, a sampled class code or `none` for a no-data sample.  An
override entry for the station supersedes it either way; without an override
the sampled code is resolved with raster provenance and a no-data sample
becomes the distinct no-data unresolved marker. -/
def applyOverride (ov : List (String × Int)) (r : StationRecord)
    (base : Option Int) : ClassificationResult :=
  match lookupOverride ov r.station_id with
  | some oc => resolveCode r .override oc
  | none =>
    match base with
    | some c => resolveCode r .raster c
    | none => unresolvedRow r Marker.noData

/-- Steps 3 to 5 of the per-row pipeline, given the sampling outcome.  The
defensive out-of-bounds case (unreachable after a successful bounds-checked
transform) is treated as out-of-coverage. -/
def classifySample (ov : List (String × Int)) (r : StationRecord) :
    SampleOutcome → ClassificationResult
  | .outOfBounds => unresolvedRow r (markerOf .outOfCoverage)
  | .noData => applyOverride ov r none
  | .data c => applyOverride ov r (some c)

/-- Modelled from the spec: the per-row pipeline of the Classification Engine
(spec 4.5 steps 2 to 6).  Coordinate resolution failure finalises the row as
unresolved with the failure reason and empty name and category (step 2); on
success the pixel is sampled (step 3) and the outcome flows through the
override merge and Taxonomy lookup of classifySample and applyOverride
(steps 4 and 5); the override wins regardless of what the raster produced,
per spec 3 OverrideMap and the spec 8 override property. -/
def classifyRow (h : RasterHandle) (ov : List (String × Int)) (r : StationRecord) :
    ClassificationResult :=
  match toPixel h r.longitude r.latitude with
  | .error e => unresolvedRow r (markerOf e)
  | .ok rc => classifySample ov r (sample h rc.1 rc.2)

/-- Modelled from the spec: `run_classification` on an already-open raster
(spec 4.5): the Validator runs once for the whole table before any row is
processed, aborting with no partial output on failure; then every row is
classified independently, in input order. -/
def runClassification (h : RasterHandle) (t : Table) (idc lonc latc : String)
    (ov : List (String × Int)) : Except ValError (List ClassificationResult) :=
  match validate t idc lonc latc with
  | .error e => .error e
  | .ok _ => .ok (t.rows.map (classifyRow h ov))

/-- Modelled from the spec: a full classification call: the raster is opened
at classifier construction, then the batch is run (spec 4.5 contract,
spec 7 failure taxonomy). -/
def classify (f : RasterFile) (t : Table) (idc lonc latc : String)
    (ov : List (String × Int)) : Except BatchError (List ClassificationResult) :=
  match openCheck f with
  | .error e => .error (.openFailure e)
  | .ok _ =>
    match runClassification (toHandle f) t idc lonc latc ov with
    | .error e => .error (.validation e)
    | .ok rs => .ok rs

/-- Candidate raster paths searched by classify_heathrow, in order
(src/examples/heathrow_demo.py, the wudapt_paths list; the last entry is the
cache path under the home directory). -/
def wudaptPaths : List String :=
  [ "wudapt_lcz_global.tif"
  , "data/wudapt_lcz_global.tif"
  , "../data/wudapt_lcz_global.tif"
  , "/tmp/wudapt_lcz_global.tif"
  , "~/.cache/urban_classifier/wudapt_lcz_global.tif" ]

/-- File-search loop of classify_heathrow (src/examples/heathrow_demo.py):
`stat` maps a path to its byte size when the path exists; the loop selects
the first existing candidate whose size is strictly greater than
3000000000 bytes and skips, with a warning, every existing candidate at or
below that size. -/
def findWudaptFile (stat : String → Option Nat) : List String → Option String
  | [] => none
  | p :: rest =>
    match stat p with
    | none => findWudaptFile stat rest
    | some sz => if 3000000000 < sz then some p else findWudaptFile stat rest

/-- How the demo drivers surface a classification attempt: a caught
exception (the error case) becomes a None return, a success is returned. -/
def exceptToOption : Except String (List ClassificationResult) →
    Option (List ClassificationResult)
  | .ok rs => some rs
  | .error _ => none

/-- classify_heathrow (src/examples/heathrow_demo.py): a classifier is
constructed and run only on the file the search loop selected; an exception
from construction or classification is caught and yields a None return, as
does the absence of a complete file.  `runC` stands for constructing
PyUrbanClassifier on the path and running the classification, with an
exception modelled as the error case. -/
def classifyHeathrow (stat : String → Option Nat)
    (runC : String → Except String (List ClassificationResult)) :
    Option (List ClassificationResult) :=
  match findWudaptFile stat wudaptPaths with
  | none => none
  | some p => exceptToOption (runC p)

/-- Candidate raster paths searched by classify_single_point, in order
(src/examples/single_point_demo.py, the wudapt_paths list). -/
def spWudaptPaths : List String :=
  [ "wudapt_lcz_global.tif"
  , "data/wudapt_lcz_global.tif"
  , "../data/wudapt_lcz_global.tif"
  , "tests/fixtures/sample_wudapt.tif"
  , "/tmp/wudapt_lcz_global.tif" ]

/-- File-search loop of classify_single_point
(src/examples/single_point_demo.py): the first existing candidate is taken,
with no size check. -/
def firstExisting (pathExists : String → Bool) : List String → Option String
  | [] => none
  | p :: rest => if pathExists p then some p else firstExisting pathExists rest

/-- The one-row input frame classify_single_point builds from its
arguments. -/
def mkSinglePointInput (lon lat : ℚ) (sid : String) : List StationRecord :=
  [⟨sid, lon, lat, [("description", "Test point")]⟩]

/-- classify_single_point (src/examples/single_point_demo.py): when a
candidate file exists, the classifier is constructed on it and run inside a
try block whose except clause returns None; when no file exists the function
prints the legend and returns None.  `runC` stands for constructing
PyUrbanClassifier on the path and running the classification on the one-row
frame, with a raised exception modelled as the error case. -/
def classifySinglePoint (pathExists : String → Bool)
    (runC : String → List StationRecord → Except String (List ClassificationResult))
    (lon lat : ℚ) (sid : String) : Option (List ClassificationResult) :=
  match firstExisting pathExists spWudaptPaths with
  | none => none
  | some p => exceptToOption (runC p (mkSinglePointInput lon lat sid))

/-- Default record used with List.getD when indexing input rows. -/
def dummyRecord : StationRecord :=
  ⟨"", 0, 0, []⟩

/-- Default result used with List.getD when indexing output rows. -/
def dummyResult : ClassificationResult :=
  unresolvedRow dummyRecord Marker.noData

theorem getD_map_of_lt {α β : Type} (F : α → β) (d : β) (dA : α) :
    ∀ (l : List α) (i : Nat), i < l.length →
      (l.map F).getD i d = F (l.getD i dA) := by
  intro l
  induction l with
  | nil => intro i hi; simp at hi
  | cons a tl ih =>
    intro i hi
    cases i with
    | zero => rfl
    | succ j =>
      simp only [List.length_cons] at hi
      exact ih j (by omega)

theorem classify_eq_map (f : RasterFile) (t : Table) (idc lonc latc : String)
    (ov : List (String × Int)) (hOpen : openCheck f = Except.ok ())
    (hVal : validate t idc lonc latc = Except.ok ()) :
    classify f t idc lonc latc ov =
      Except.ok (t.rows.map (classifyRow (toHandle f) ov)) := by
  unfold classify runClassification
  rw [hOpen, hVal]

theorem toPixel_lt (h : RasterHandle) (lon lat : ℚ) (rc : Nat × Nat)
    (hp : toPixel h lon lat = Except.ok rc) :
    rc.1 < h.height ∧ rc.2 < h.width := by
  unfold toPixel at hp
  cases hr : h.reproject lon lat with
  | none => rw [hr] at hp; exact absurd hp (by simp)
  | some xy =>
    rw [hr] at hp
    obtain ⟨x, y⟩ := xy
    simp only at hp
    split at hp
    case isTrue hcond =>
      obtain ⟨h1, h2, h3, h4⟩ := hcond
      cases hp
      refine ⟨?_, ?_⟩
      · show (pixRow h x y).toNat < h.height
        omega
      · show (pixCol h x y).toNat < h.width
        omega
    case isFalse => exact absurd hp (by simp)

theorem sample_in_bounds (h : RasterHandle) (row col : Nat)
    (hr : row < h.height) (hc : col < h.width) :
    sample h row col =
      if h.pix row col = h.noData then SampleOutcome.noData
      else SampleOutcome.data (h.pix row col) := by
  unfold sample
  rw [if_neg (by omega)]

theorem unresolvedRow_station_id (r : StationRecord) (m : Marker) :
    (unresolvedRow r m).station_id = r.station_id := rfl

theorem resolveCode_station_id (r : StationRecord) (p : Provenance) (c : Int) :
    (resolveCode r p c).station_id = r.station_id := by
  unfold resolveCode
  cases lookupLcz c with
  | none => rfl
  | some nc => rfl

theorem applyOverride_station_id (ov : List (String × Int)) (r : StationRecord)
    (base : Option Int) : (applyOverride ov r base).station_id = r.station_id := by
  unfold applyOverride
  cases lookupOverride ov r.station_id with
  | some oc => exact resolveCode_station_id r .override oc
  | none =>
    cases base with
    | some c => exact resolveCode_station_id r .raster c
    | none => rfl

theorem classifyRow_station_id (h : RasterHandle) (ov : List (String × Int))
    (r : StationRecord) : (classifyRow h ov r).station_id = r.station_id := by
  unfold classifyRow
  cases toPixel h r.longitude r.latitude with
  | error e => rfl
  | ok rc =>
    show (classifySample ov r (sample h rc.1 rc.2)).station_id = r.station_id
    cases sample h rc.1 rc.2 with
    | outOfBounds => rfl
    | noData => exact applyOverride_station_id ov r none
    | data c => exact applyOverride_station_id ov r (some c)

theorem classifyRow_coordFail (h : RasterHandle) (ov : List (String × Int))
    (r : StationRecord) (e : CoordError)
    (he : toPixel h r.longitude r.latitude = Except.error e) :
    classifyRow h ov r = unresolvedRow r (markerOf e) := by
  unfold classifyRow
  rw [he]

theorem applyOverride_some (ov : List (String × Int)) (r : StationRecord)
    (base : Option Int) (oc : Int)
    (ho : lookupOverride ov r.station_id = some oc) :
    applyOverride ov r base = resolveCode r .override oc := by
  unfold applyOverride
  rw [ho]

theorem classifyRow_override (h : RasterHandle) (ov : List (String × Int))
    (r : StationRecord) (rc : Nat × Nat) (oc : Int)
    (hp : toPixel h r.longitude r.latitude = Except.ok rc)
    (ho : lookupOverride ov r.station_id = some oc) :
    classifyRow h ov r = resolveCode r .override oc := by
  unfold classifyRow
  rw [hp]
  show classifySample ov r (sample h rc.1 rc.2) = resolveCode r .override oc
  cases hsam : sample h rc.1 rc.2 with
  | outOfBounds =>
    obtain ⟨hr2, hc2⟩ := toPixel_lt h _ _ rc hp
    rw [sample_in_bounds h rc.1 rc.2 hr2 hc2] at hsam
    by_cases hnd : h.pix rc.1 rc.2 = h.noData
    · rw [if_pos hnd] at hsam
      exact SampleOutcome.noConfusion hsam
    · rw [if_neg hnd] at hsam
      exact SampleOutcome.noConfusion hsam
  | noData => exact applyOverride_some ov r none oc ho
  | data c => exact applyOverride_some ov r (some c) oc ho

theorem classifyRow_raster (h : RasterHandle) (ov : List (String × Int))
    (r : StationRecord) (rc : Nat × Nat) (c : Int)
    (hp : toPixel h r.longitude r.latitude = Except.ok rc)
    (hs : sample h rc.1 rc.2 = SampleOutcome.data c)
    (ho : lookupOverride ov r.station_id = none) :
    classifyRow h ov r = resolveCode r .raster c := by
  unfold classifyRow
  rw [hp]
  show classifySample ov r (sample h rc.1 rc.2) = resolveCode r .raster c
  rw [hs]
  show applyOverride ov r (some c) = resolveCode r .raster c
  unfold applyOverride
  rw [ho]

theorem classifyRow_nodata (h : RasterHandle) (ov : List (String × Int))
    (r : StationRecord) (rc : Nat × Nat)
    (hp : toPixel h r.longitude r.latitude = Except.ok rc)
    (hs : sample h rc.1 rc.2 = SampleOutcome.noData)
    (ho : lookupOverride ov r.station_id = none) :
    classifyRow h ov r = unresolvedRow r Marker.noData := by
  unfold classifyRow
  rw [hp]
  show classifySample ov r (sample h rc.1 rc.2) = unresolvedRow r Marker.noData
  rw [hs]
  show applyOverride ov r none = unresolvedRow r Marker.noData
  unfold applyOverride
  rw [ho]

theorem resolveCode_found (r : StationRecord) (p : Provenance) (c : Int)
    (nm : String) (cat : SimpleClass) (hl : lookupLcz c = some (nm, cat)) :
    resolveCode r p c =
      { station_id := r.station_id
      , longitude := r.longitude
      , latitude := r.latitude
      , passthrough := r.passthrough
      , lcz_code := .code c
      , lcz_name := nm
      , simple_class := categoryName cat
      , provenance := p } := by
  unfold resolveCode
  rw [hl]

/-- Geotransform of a one-degree global grid: x = -180 + col, y = 90 - row. -/
def globalGT : GeoTransform :=
  ⟨-180, 1, 0, 90, 0, -1⟩

/-- A complete, well-formed global single-band raster file with the given
pixel contents, no-data sentinel 0 and an identity reprojection. -/
def mkGlobalFile (p : Nat → Nat → Int) : RasterFile :=
  { present := true
  , singleBand := true
  , width := 360
  , height := 180
  , bytesPerPixel := 1
  , actualByteSize := 64800
  , gt := globalGT
  , reproject := fun x y => some (x, y)
  , noData := 0
  , pix := p }

/-- Global raster whose every pixel holds class 8. -/
def fileClass8 : RasterFile := mkGlobalFile (fun _ _ => 8)

/-- Global raster whose every pixel holds 99, a code outside the legend. -/
def fileClass99 : RasterFile := mkGlobalFile (fun _ _ => 99)

/-- Global raster whose every pixel equals the no-data sentinel. -/
def fileAllNoData : RasterFile := mkGlobalFile (fun _ _ => 0)

/-- A truncated copy of the class-8 raster: 1000 bytes on disk against the
64800 implied by 360 x 180 x 1. -/
def fileTruncated : RasterFile :=
  { mkGlobalFile (fun _ _ => 8) with actualByteSize := 1000 }

/-- The standard input schema of the demo scripts. -/
def stationColumns : List (String × ColType) :=
  [("station_id", ColType.text), ("longitude", ColType.number), ("latitude", ColType.number)]

/-- Heathrow Airport station, coordinates (-0.4543, 51.47). -/
def heathrowRecord : StationRecord :=
  ⟨"HEATHROW_LHR", -4543/10000, 5147/100, []⟩

/-- London station of the python demo, coordinates (-0.1278, 51.5074). -/
def londonRecord : StationRecord :=
  ⟨"LONDON_001", -1278/10000, 515074/10000, []⟩

/-- Station with out-of-range coordinates (1000, 1000). -/
def badCoordRecord : StationRecord :=
  ⟨"OV1", 1000, 1000, []⟩

def tableHeathrow : Table := ⟨stationColumns, [heathrowRecord]⟩

def tableTwoCities : Table := ⟨stationColumns, [heathrowRecord, londonRecord]⟩

def tableBadCoord : Table := ⟨stationColumns, [badCoordRecord]⟩

def tableMixed : Table := ⟨stationColumns, [⟨"BAD1", 1000, 1000, []⟩, heathrowRecord]⟩

def tableMissingLat : Table := ⟨[("station_id", ColType.text), ("longitude", ColType.number)], []⟩


theorem map_station_id (h : RasterHandle) (ov : List (String × Int)) :
    ∀ l : List StationRecord,
      (l.map (classifyRow h ov)).map (fun x => x.station_id) =
        l.map (fun r => r.station_id)
  | [] => rfl
  | r :: tl => by
    simp only [List.map_cons]
    rw [classifyRow_station_id h ov r, map_station_id h ov tl]

/-- C2: when validation and the raster open succeed, classify returns one
output row per input StationRecord, in input order (the sequence of station
identifiers is preserved), for any batch size; in particular an empty input
batch yields an empty result and no error. -/
theorem classify_preserves_batch (f : RasterFile) (t : Table)
    (idc lonc latc : String) (ov : List (String × Int))
    (hOpen : openCheck f = Except.ok ())
    (hVal : validate t idc lonc latc = Except.ok ()) :
    ∃ rs, classify f t idc lonc latc ov = Except.ok rs ∧
      rs.length = t.rows.length ∧
      rs.map (fun x => x.station_id) = t.rows.map (fun r => r.station_id) ∧
      (t.rows = [] → rs = []) := by
  refine ⟨t.rows.map (classifyRow (toHandle f) ov),
    classify_eq_map f t idc lonc latc ov hOpen hVal, by simp,
    map_station_id (toHandle f) ov t.rows, ?_⟩
  intro hemp
  rw [hemp]
  rfl

/-- Witness for C2 at a concrete raster and two-station batch. -/
theorem classify_preserves_batch_witness :
    ∃ rs, classify fileClass8 tableTwoCities "station_id" "longitude" "latitude" [] =
        Except.ok rs ∧
      rs.length = tableTwoCities.rows.length ∧
      rs.map (fun x => x.station_id) = tableTwoCities.rows.map (fun r => r.station_id) ∧
      (tableTwoCities.rows = [] → rs = []) :=
  classify_preserves_batch fileClass8 tableTwoCities "station_id" "longitude" "latitude" []
    (by with_unfolding_all rfl) (by with_unfolding_all rfl)

/-- C3: a raster file that exists and parses but whose actual byte size is
below the size implied by its declared dimensions times bit depth is rejected
by open with the truncation error, and every classification call on it fails
with that batch error before any row is classified. -/
theorem truncated_raster_rejected (f : RasterFile)
    (hp : f.present = true) (hb : f.singleBand = true)
    (hlt : f.actualByteSize < f.width * f.height * f.bytesPerPixel) :
    openRaster f = Except.error OpenError.tooSmall ∧
    ∀ t idc lonc latc ov, classify f t idc lonc latc ov =
      Except.error (BatchError.openFailure OpenError.tooSmall) := by
  have hchk : openCheck f = Except.error OpenError.tooSmall := by
    unfold openCheck
    rw [hp, hb]
    rw [if_neg (by simp), if_neg (by simp), if_pos hlt]
  constructor
  · unfold openRaster
    rw [hchk]
  · intro t idc lonc latc ov
    unfold classify
    rw [hchk]

/-- Witness for C3 at a concrete truncated raster file. -/
theorem truncated_raster_rejected_witness :
    openRaster fileTruncated = Except.error OpenError.tooSmall ∧
    ∀ t idc lonc latc ov, classify fileTruncated t idc lonc latc ov =
      Except.error (BatchError.openFailure OpenError.tooSmall) :=
  truncated_raster_rejected fileTruncated rfl rfl (by decide)

/-- C4: a row whose coordinate transformation fails with OutOfCoverage or
ProjectionError still yields an output row for its station, marked unresolved
with that failure reason and empty name and category, while the batch as a
whole completes with one row per input record. -/
theorem coord_failure_isolated (f : RasterFile) (t : Table)
    (idc lonc latc : String) (ov : List (String × Int)) (i : Nat) (e : CoordError)
    (hOpen : openCheck f = Except.ok ())
    (hVal : validate t idc lonc latc = Except.ok ())
    (hi : i < t.rows.length)
    (he : toPixel (toHandle f) (t.rows.getD i dummyRecord).longitude
        (t.rows.getD i dummyRecord).latitude = Except.error e) :
    ∃ rs, classify f t idc lonc latc ov = Except.ok rs ∧
      rs.length = t.rows.length ∧
      (rs.getD i dummyResult).station_id = (t.rows.getD i dummyRecord).station_id ∧
      (rs.getD i dummyResult).lcz_code = CodeField.unresolved (markerOf e) ∧
      (rs.getD i dummyResult).lcz_name = "" ∧
      (rs.getD i dummyResult).simple_class = "" ∧
      (rs.getD i dummyResult).provenance = Provenance.unresolved := by
  refine ⟨t.rows.map (classifyRow (toHandle f) ov),
    classify_eq_map f t idc lonc latc ov hOpen hVal, by simp, ?_, ?_, ?_, ?_, ?_⟩ <;>
      rw [getD_map_of_lt (classifyRow (toHandle f) ov) dummyResult dummyRecord t.rows i hi,
        classifyRow_coordFail (toHandle f) ov _ e he] <;>
      rfl

/-- Witness for C4: a two-station batch whose first station sits at the
out-of-range coordinates (1000, 1000). -/
theorem coord_failure_isolated_witness :
    ∃ rs, classify fileClass8 tableMixed "station_id" "longitude" "latitude" [] =
        Except.ok rs ∧
      rs.length = tableMixed.rows.length ∧
      (rs.getD 0 dummyResult).station_id = (tableMixed.rows.getD 0 dummyRecord).station_id ∧
      (rs.getD 0 dummyResult).lcz_code =
        CodeField.unresolved (markerOf CoordError.outOfCoverage) ∧
      (rs.getD 0 dummyResult).lcz_name = "" ∧
      (rs.getD 0 dummyResult).simple_class = "" ∧
      (rs.getD 0 dummyResult).provenance = Provenance.unresolved :=
  coord_failure_isolated fileClass8 tableMixed "station_id" "longitude" "latitude" []
    0 CoordError.outOfCoverage (by with_unfolding_all rfl) (by with_unfolding_all rfl)
    (by decide) (by with_unfolding_all rfl)

theorem classifyRow_override_fields (h : RasterHandle) (ov : List (String × Int))
    (r : StationRecord) (rc : Nat × Nat) (oc : Int) (nm : String) (cat : SimpleClass)
    (hp : toPixel h r.longitude r.latitude = Except.ok rc)
    (ho : lookupOverride ov r.station_id = some oc)
    (hlk : lookupLcz oc = some (nm, cat)) :
    (classifyRow h ov r).lcz_code = CodeField.code oc ∧
    (classifyRow h ov r).lcz_name = nm ∧
    (classifyRow h ov r).simple_class = categoryName cat ∧
    (classifyRow h ov r).provenance = Provenance.override := by
  rw [classifyRow_override h ov r rc oc hp ho,
    resolveCode_found r .override oc nm cat hlk]
  exact ⟨rfl, rfl, rfl, rfl⟩

/-- C1 counterexample: station OV1 has an override entry with legend code 2,
but its coordinates (1000, 1000) fail coordinate resolution, so the returned
row carries the out-of-coverage unresolved marker rather than the override
code: the override map entry does not determine lcz_code for every overridden
station. -/
theorem override_ignored_on_coord_failure :
    lookupOverride [("OV1", 2)] "OV1" = some 2 ∧
    lookupLcz 2 = some ("Compact midrise", SimpleClass.Urban) ∧
    classify fileClass8 tableBadCoord "station_id" "longitude" "latitude" [("OV1", 2)] =
      Except.ok [{ station_id := "OV1", longitude := 1000, latitude := 1000
                 , passthrough := []
                 , lcz_code := CodeField.unresolved Marker.outOfCoverage
                 , lcz_name := "", simple_class := ""
                 , provenance := Provenance.unresolved }] ∧
    CodeField.unresolved Marker.outOfCoverage ≠ CodeField.code 2 :=
  ⟨by with_unfolding_all rfl, by with_unfolding_all rfl, by with_unfolding_all rfl,
    by decide⟩

/-- C1 (amended): for every station with an override entry whose coordinate
transformation succeeds and whose override code is present in the Taxonomy
Table, the output row carries the override code — regardless of what the
raster produced at the location, a class pixel or no-data — with name and
category derived from the Taxonomy Table at the override code and override
provenance. -/
theorem override_wins_when_resolved (f : RasterFile) (t : Table)
    (idc lonc latc : String) (ov : List (String × Int)) (i : Nat)
    (rc : Nat × Nat) (oc : Int) (nm : String) (cat : SimpleClass)
    (hOpen : openCheck f = Except.ok ())
    (hVal : validate t idc lonc latc = Except.ok ())
    (hi : i < t.rows.length)
    (hpx : toPixel (toHandle f) (t.rows.getD i dummyRecord).longitude
        (t.rows.getD i dummyRecord).latitude = Except.ok rc)
    (hov : lookupOverride ov (t.rows.getD i dummyRecord).station_id = some oc)
    (hlk : lookupLcz oc = some (nm, cat)) :
    ∃ rs, classify f t idc lonc latc ov = Except.ok rs ∧
      rs.length = t.rows.length ∧
      (rs.getD i dummyResult).lcz_code = CodeField.code oc ∧
      (rs.getD i dummyResult).lcz_name = nm ∧
      (rs.getD i dummyResult).simple_class = categoryName cat ∧
      (rs.getD i dummyResult).provenance = Provenance.override := by
  obtain ⟨h1, h2, h3, h4⟩ :=
    classifyRow_override_fields (toHandle f) ov (t.rows.getD i dummyRecord)
      rc oc nm cat hpx hov hlk
  refine ⟨t.rows.map (classifyRow (toHandle f) ov),
    classify_eq_map f t idc lonc latc ov hOpen hVal, by simp, ?_, ?_, ?_, ?_⟩ <;>
      rw [getD_map_of_lt (classifyRow (toHandle f) ov) dummyResult dummyRecord t.rows i hi]
  exacts [h1, h2, h3, h4]

/-- Witness for the amended C1: LONDON_001 is overridden to code 2 over a
class-8 raster; the output row shows code 2, Compact midrise, Urban, override
provenance. -/
theorem override_wins_when_resolved_witness :
    ∃ rs, classify fileClass8 tableTwoCities "station_id" "longitude" "latitude"
        [("LONDON_001", 2)] = Except.ok rs ∧
      rs.length = tableTwoCities.rows.length ∧
      (rs.getD 1 dummyResult).lcz_code = CodeField.code 2 ∧
      (rs.getD 1 dummyResult).lcz_name = "Compact midrise" ∧
      (rs.getD 1 dummyResult).simple_class = categoryName SimpleClass.Urban ∧
      (rs.getD 1 dummyResult).provenance = Provenance.override :=
  override_wins_when_resolved fileClass8 tableTwoCities "station_id" "longitude"
    "latitude" [("LONDON_001", 2)] 1 (38, 179) 2 "Compact midrise" SimpleClass.Urban
    (by with_unfolding_all rfl) (by with_unfolding_all rfl) (by decide)
    (by with_unfolding_all rfl) (by with_unfolding_all rfl) (by with_unfolding_all rfl)

theorem classifyRow_raster_fields (h : RasterHandle) (ov : List (String × Int))
    (r : StationRecord) (rc : Nat × Nat) (c : Int) (nm : String) (cat : SimpleClass)
    (hp : toPixel h r.longitude r.latitude = Except.ok rc)
    (hs : sample h rc.1 rc.2 = SampleOutcome.data c)
    (ho : lookupOverride ov r.station_id = none)
    (hlk : lookupLcz c = some (nm, cat)) :
    (classifyRow h ov r).lcz_code = CodeField.code c ∧
    (classifyRow h ov r).lcz_name = nm ∧
    (classifyRow h ov r).simple_class = categoryName cat ∧
    (classifyRow h ov r).provenance = Provenance.raster := by
  rw [classifyRow_raster h ov r rc c hp hs ho,
    resolveCode_found r .raster c nm cat hlk]
  exact ⟨rfl, rfl, rfl, rfl⟩

theorem categoryName_mem (cat : SimpleClass) :
    categoryName cat = "Urban" ∨ categoryName cat = "Suburban" ∨
      categoryName cat = "Rural" := by
  cases cat
  · exact Or.inl rfl
  · exact Or.inr (Or.inl rfl)
  · exact Or.inr (Or.inr rfl)

/-- C5 counterexample: over a raster whose sampled pixel holds 99 — a value
different from the no-data sentinel but absent from the Taxonomy Table — the
Heathrow station (inside coverage, no override) is returned with the
unknown-code unresolved marker and an empty simple_class, not with a
ClassCode present in the Taxonomy Table and a category in
{Urban, Suburban, Rural}. -/
theorem unknown_pixel_code_unresolved :
    toPixel (toHandle fileClass99) heathrowRecord.longitude heathrowRecord.latitude =
      Except.ok (38, 179) ∧
    sample (toHandle fileClass99) 38 179 = SampleOutcome.data 99 ∧
    (99 : Int) ≠ (toHandle fileClass99).noData ∧
    lookupOverride [] heathrowRecord.station_id = none ∧
    lookupLcz 99 = none ∧
    classify fileClass99 tableHeathrow "station_id" "longitude" "latitude" [] =
      Except.ok [{ station_id := "HEATHROW_LHR"
                 , longitude := -4543/10000, latitude := 5147/100
                 , passthrough := []
                 , lcz_code := CodeField.unresolved (Marker.unknownCode 99)
                 , lcz_name := "", simple_class := ""
                 , provenance := Provenance.unresolved }] ∧
    ¬("" = "Urban" ∨ "" = "Suburban" ∨ "" = "Rural") :=
  ⟨by with_unfolding_all rfl, by with_unfolding_all rfl, by decide,
    by with_unfolding_all rfl, by with_unfolding_all rfl, by with_unfolding_all rfl,
    by decide⟩

/-- C5 (amended): for every station inside the raster coverage whose sampled
pixel is not the no-data sentinel, is a code present in the Taxonomy Table,
and has no override, classify returns that ClassCode with the name and
category the Taxonomy Table assigns to it — a category always among Urban,
Suburban and Rural — with raster provenance. -/
theorem raster_code_in_legend_classified (f : RasterFile) (t : Table)
    (idc lonc latc : String) (ov : List (String × Int)) (i : Nat)
    (rc : Nat × Nat) (c : Int) (nm : String) (cat : SimpleClass)
    (hOpen : openCheck f = Except.ok ())
    (hVal : validate t idc lonc latc = Except.ok ())
    (hi : i < t.rows.length)
    (hpx : toPixel (toHandle f) (t.rows.getD i dummyRecord).longitude
        (t.rows.getD i dummyRecord).latitude = Except.ok rc)
    (hs : sample (toHandle f) rc.1 rc.2 = SampleOutcome.data c)
    (hov : lookupOverride ov (t.rows.getD i dummyRecord).station_id = none)
    (hlk : lookupLcz c = some (nm, cat)) :
    ∃ rs, classify f t idc lonc latc ov = Except.ok rs ∧
      rs.length = t.rows.length ∧
      (rs.getD i dummyResult).lcz_code = CodeField.code c ∧
      (lookupLcz c).isSome = true ∧
      (rs.getD i dummyResult).lcz_name = nm ∧
      (rs.getD i dummyResult).simple_class = categoryName cat ∧
      ((rs.getD i dummyResult).simple_class = "Urban" ∨
        (rs.getD i dummyResult).simple_class = "Suburban" ∨
        (rs.getD i dummyResult).simple_class = "Rural") ∧
      (rs.getD i dummyResult).provenance = Provenance.raster := by
  obtain ⟨h1, h2, h3, h4⟩ :=
    classifyRow_raster_fields (toHandle f) ov (t.rows.getD i dummyRecord)
      rc c nm cat hpx hs hov hlk
  refine ⟨t.rows.map (classifyRow (toHandle f) ov),
    classify_eq_map f t idc lonc latc ov hOpen hVal, by simp, ?_, ?_, ?_, ?_, ?_, ?_⟩
  · rw [getD_map_of_lt (classifyRow (toHandle f) ov) dummyResult dummyRecord t.rows i hi]
    exact h1
  · rw [hlk]
    rfl
  · rw [getD_map_of_lt (classifyRow (toHandle f) ov) dummyResult dummyRecord t.rows i hi]
    exact h2
  · rw [getD_map_of_lt (classifyRow (toHandle f) ov) dummyResult dummyRecord t.rows i hi]
    exact h3
  · rw [getD_map_of_lt (classifyRow (toHandle f) ov) dummyResult dummyRecord t.rows i hi,
      h3]
    exact categoryName_mem cat
  · rw [getD_map_of_lt (classifyRow (toHandle f) ov) dummyResult dummyRecord t.rows i hi]
    exact h4

/-- Witness for the amended C5: the scenario named by the claim — station at
(51.47, -0.4543), no override, sampled pixel of class 8 — yields lcz_code 8,
Large low-rise, Suburban, raster provenance. -/
theorem raster_code_in_legend_classified_witness :
    ∃ rs, classify fileClass8 tableHeathrow "station_id" "longitude" "latitude" [] =
        Except.ok rs ∧
      rs.length = tableHeathrow.rows.length ∧
      (rs.getD 0 dummyResult).lcz_code = CodeField.code 8 ∧
      (lookupLcz 8).isSome = true ∧
      (rs.getD 0 dummyResult).lcz_name = "Large low-rise" ∧
      (rs.getD 0 dummyResult).simple_class = categoryName SimpleClass.Suburban ∧
      ((rs.getD 0 dummyResult).simple_class = "Urban" ∨
        (rs.getD 0 dummyResult).simple_class = "Suburban" ∨
        (rs.getD 0 dummyResult).simple_class = "Rural") ∧
      (rs.getD 0 dummyResult).provenance = Provenance.raster :=
  raster_code_in_legend_classified fileClass8 tableHeathrow "station_id" "longitude"
    "latitude" [] 0 (38, 179) 8 "Large low-rise" SimpleClass.Suburban
    (by with_unfolding_all rfl) (by with_unfolding_all rfl) (by decide)
    (by with_unfolding_all rfl) (by with_unfolding_all rfl) (by with_unfolding_all rfl)
    (by with_unfolding_all rfl)

theorem sample_eq_nodata (h : RasterHandle) (row col : Nat)
    (hr : row < h.height) (hc : col < h.width)
    (hnd : h.pix row col = h.noData) : sample h row col = SampleOutcome.noData := by
  rw [sample_in_bounds h row col hr hc, if_pos hnd]

/-- C8 counterexample: the Heathrow station sits on a no-data pixel but has
an override entry with code 2; the returned row carries the override code,
not the no-data unresolved ClassCode the claim asserts for every no-data
row. -/
theorem override_supersedes_nodata :
    (toHandle fileAllNoData).pix 38 179 = (toHandle fileAllNoData).noData ∧
    toPixel (toHandle fileAllNoData) heathrowRecord.longitude heathrowRecord.latitude =
      Except.ok (38, 179) ∧
    sample (toHandle fileAllNoData) 38 179 = SampleOutcome.noData ∧
    classify fileAllNoData tableHeathrow "station_id" "longitude" "latitude"
        [("HEATHROW_LHR", 2)] =
      Except.ok [{ station_id := "HEATHROW_LHR"
                 , longitude := -4543/10000, latitude := 5147/100
                 , passthrough := []
                 , lcz_code := CodeField.code 2, lcz_name := "Compact midrise"
                 , simple_class := "Urban", provenance := Provenance.override }] ∧
    CodeField.code 2 ≠ CodeField.unresolved Marker.noData :=
  ⟨rfl, by with_unfolding_all rfl, by with_unfolding_all rfl,
    by with_unfolding_all rfl, by decide⟩

/-- C8 (amended): for every station without an override whose resolved pixel
equals the no-data sentinel, sample returns the non-error NoData outcome and
the output row records the no-data unresolved ClassCode with unresolved
provenance, under a marker distinct from both coordinate-resolution failure
markers, so no-data rows are distinguishable from out-of-extent rows. -/
theorem nodata_row_distinct_marker (f : RasterFile) (t : Table)
    (idc lonc latc : String) (ov : List (String × Int)) (i : Nat) (rc : Nat × Nat)
    (hOpen : openCheck f = Except.ok ())
    (hVal : validate t idc lonc latc = Except.ok ())
    (hi : i < t.rows.length)
    (hpx : toPixel (toHandle f) (t.rows.getD i dummyRecord).longitude
        (t.rows.getD i dummyRecord).latitude = Except.ok rc)
    (hnd : (toHandle f).pix rc.1 rc.2 = (toHandle f).noData)
    (hov : lookupOverride ov (t.rows.getD i dummyRecord).station_id = none) :
    sample (toHandle f) rc.1 rc.2 = SampleOutcome.noData ∧
    ∃ rs, classify f t idc lonc latc ov = Except.ok rs ∧
      rs.length = t.rows.length ∧
      (rs.getD i dummyResult).lcz_code = CodeField.unresolved Marker.noData ∧
      (rs.getD i dummyResult).provenance = Provenance.unresolved ∧
      Marker.noData ≠ markerOf CoordError.outOfCoverage ∧
      Marker.noData ≠ markerOf CoordError.projectionError := by
  obtain ⟨hr, hc⟩ := toPixel_lt (toHandle f) _ _ rc hpx
  have hs := sample_eq_nodata (toHandle f) rc.1 rc.2 hr hc hnd
  have hrow := classifyRow_nodata (toHandle f) ov (t.rows.getD i dummyRecord) rc hpx hs hov
  refine ⟨hs, t.rows.map (classifyRow (toHandle f) ov),
    classify_eq_map f t idc lonc latc ov hOpen hVal, by simp, ?_, ?_,
    by decide, by decide⟩
  · rw [getD_map_of_lt (classifyRow (toHandle f) ov) dummyResult dummyRecord t.rows i hi,
      hrow]
    rfl
  · rw [getD_map_of_lt (classifyRow (toHandle f) ov) dummyResult dummyRecord t.rows i hi,
      hrow]
    rfl

/-- Witness for the amended C8: the Heathrow station over the all-no-data
raster with no override. -/
theorem nodata_row_distinct_marker_witness :
    sample (toHandle fileAllNoData) (38, 179).1 (38, 179).2 = SampleOutcome.noData ∧
    ∃ rs, classify fileAllNoData tableHeathrow "station_id" "longitude" "latitude" [] =
        Except.ok rs ∧
      rs.length = tableHeathrow.rows.length ∧
      (rs.getD 0 dummyResult).lcz_code = CodeField.unresolved Marker.noData ∧
      (rs.getD 0 dummyResult).provenance = Provenance.unresolved ∧
      Marker.noData ≠ markerOf CoordError.outOfCoverage ∧
      Marker.noData ≠ markerOf CoordError.projectionError :=
  nodata_row_distinct_marker fileAllNoData tableHeathrow "station_id" "longitude"
    "latitude" [] 0 (38, 179)
    (by with_unfolding_all rfl) (by with_unfolding_all rfl) (by decide)
    (by with_unfolding_all rfl) rfl (by with_unfolding_all rfl)

/-- C6: when the identifier, longitude or latitude column named by the caller
is absent from the input table, validate fails with MissingColumn on one of
those three names, and no classification call on that table can return any
output rows — all-or-nothing, no partial output. -/
theorem missing_column_aborts (t : Table) (idc lonc latc : String)
    (h : findCol t idc = none ∨ findCol t lonc = none ∨ findCol t latc = none) :
    (∃ c, (c = idc ∨ c = lonc ∨ c = latc) ∧ findCol t c = none ∧
      validate t idc lonc latc = Except.error (ValError.missingColumn c)) ∧
    ∀ f ov rs, classify f t idc lonc latc ov ≠ Except.ok rs := by
  have hval : ∃ c, (c = idc ∨ c = lonc ∨ c = latc) ∧ findCol t c = none ∧
      validate t idc lonc latc = Except.error (ValError.missingColumn c) := by
    cases hidv : findCol t idc with
    | none => exact ⟨idc, Or.inl rfl, hidv, by unfold validate; rw [hidv]⟩
    | some ty1 =>
      cases hlonv : findCol t lonc with
      | none =>
        exact ⟨lonc, Or.inr (Or.inl rfl), hlonv, by unfold validate; rw [hidv, hlonv]⟩
      | some ty2 =>
        cases hlatv : findCol t latc with
        | none =>
          exact ⟨latc, Or.inr (Or.inr rfl), hlatv, by
            unfold validate; rw [hidv, hlonv, hlatv]⟩
        | some ty3 =>
          rcases h with h1 | h2 | h3
          · exact absurd hidv (by rw [h1]; exact Option.noConfusion)
          · exact absurd hlonv (by rw [h2]; exact Option.noConfusion)
          · exact absurd hlatv (by rw [h3]; exact Option.noConfusion)
  refine ⟨hval, ?_⟩
  intro f ov rs hcl
  obtain ⟨c, _, _, hv⟩ := hval
  unfold classify at hcl
  cases hoc : openCheck f with
  | error e =>
    rw [hoc] at hcl
    exact Except.noConfusion hcl
  | ok u =>
    rw [hoc] at hcl
    unfold runClassification at hcl
    rw [hv] at hcl
    exact Except.noConfusion hcl

/-- Witness for C6 at a concrete table lacking the latitude column. -/
theorem missing_column_aborts_witness :
    (∃ c, (c = "station_id" ∨ c = "longitude" ∨ c = "latitude") ∧
      findCol tableMissingLat c = none ∧
      validate tableMissingLat "station_id" "longitude" "latitude" =
        Except.error (ValError.missingColumn c)) ∧
    ∀ f ov rs, classify f tableMissingLat "station_id" "longitude" "latitude" ov ≠
      Except.ok rs :=
  missing_column_aborts tableMissingLat "station_id" "longitude" "latitude"
    (Or.inr (Or.inr (by decide)))

theorem findWudaptFile_size_guard (stat : String → Option Nat) :
    ∀ (l : List String) (p : String), findWudaptFile stat l = some p →
      ∃ sz, stat p = some sz ∧ 3000000000 < sz := by
  intro l
  induction l with
  | nil => intro p hp; exact Option.noConfusion hp
  | cons q rest ih =>
    intro p hp
    unfold findWudaptFile at hp
    cases hq : stat q with
    | none =>
      rw [hq] at hp
      exact ih p hp
    | some sz =>
      rw [hq] at hp
      change (if 3000000000 < sz then some q else findWudaptFile stat rest) = some p at hp
      by_cases hsz : 3000000000 < sz
      · rw [if_pos hsz] at hp
        injection hp with he
        exact ⟨sz, by rw [← he]; exact hq, hsz⟩
      · rw [if_neg hsz] at hp
        exact ih p hp

/-- C9: in classify_heathrow, a classifier is constructed on a candidate
path only if that path exists and its byte size strictly exceeds
3000000000 bytes; an existing candidate of size at most 3000000000 bytes is
never the selected path, so classification is never attempted on it (the
only path classifyHeathrow runs the classifier on is the one the search
selects). -/
theorem heathrow_size_guard (stat : String → Option Nat) (p : String)
    (h : findWudaptFile stat wudaptPaths = some p) :
    (∃ sz, stat p = some sz ∧ 3000000000 < sz) ∧
    (∀ q sz, stat q = some sz → sz ≤ 3000000000 →
      findWudaptFile stat wudaptPaths ≠ some q) ∧
    ∀ runC, classifyHeathrow stat runC = exceptToOption (runC p) := by
  refine ⟨findWudaptFile_size_guard stat wudaptPaths p h, ?_, ?_⟩
  · intro q sz hq hle hcontra
    obtain ⟨sz2, hq2, hgt⟩ := findWudaptFile_size_guard stat wudaptPaths q hcontra
    rw [hq] at hq2
    injection hq2 with he
    omega
  · intro runC
    unfold classifyHeathrow
    rw [h]

/-- A demo file system for classify_heathrow: the first candidate exists but
holds only 2000000000 bytes, the second is complete at 4100000000 bytes. -/
def statDemo : String → Option Nat := fun p =>
  if p = "wudapt_lcz_global.tif" then some 2000000000
  else if p = "data/wudapt_lcz_global.tif" then some 4100000000
  else none

/-- Witness for C9: with statDemo the undersized first candidate is skipped
and the complete second candidate is selected. -/
theorem heathrow_size_guard_witness :
    (∃ sz, statDemo "data/wudapt_lcz_global.tif" = some sz ∧ 3000000000 < sz) ∧
    (∀ q sz, statDemo q = some sz → sz ≤ 3000000000 →
      findWudaptFile statDemo wudaptPaths ≠ some q) ∧
    ∀ runC, classifyHeathrow statDemo runC =
      exceptToOption (runC "data/wudapt_lcz_global.tif") :=
  heathrow_size_guard statDemo "data/wudapt_lcz_global.tif" (by decide)

/-- C10: classify_single_point is total in the classification outcome — it
returns some result exactly when a candidate file exists and the
classification run returns without an exception; in every other case,
including an exception raised during classifier construction or
run_classification (the error case of runC) and the absence of any raster
file, it returns none rather than propagating the failure. -/
theorem single_point_never_propagates (pathExists : String → Bool)
    (runC : String → List StationRecord → Except String (List ClassificationResult))
    (lon lat : ℚ) (sid : String) (rs : List ClassificationResult) :
    classifySinglePoint pathExists runC lon lat sid = some rs ↔
      ∃ p, firstExisting pathExists spWudaptPaths = some p ∧
        runC p (mkSinglePointInput lon lat sid) = Except.ok rs := by
  unfold classifySinglePoint
  cases hf : firstExisting pathExists spWudaptPaths with
  | none =>
    constructor
    · intro hcontra
      exact Option.noConfusion hcontra
    · rintro ⟨p, hp, _⟩
      exact Option.noConfusion hp
  | some p =>
    show exceptToOption (runC p (mkSinglePointInput lon lat sid)) = some rs ↔ _
    cases hr : runC p (mkSinglePointInput lon lat sid) with
    | ok rs2 =>
      constructor
      · intro hsome
        injection hsome with he
        exact ⟨p, rfl, by rw [hr, he]⟩
      · rintro ⟨q, hq, hok⟩
        injection hq with hq2
        rw [← hq2] at hok
        rw [hok] at hr
        injection hr with he
        rw [he]
        rfl
    | error e =>
      constructor
      · intro hcontra
        exact Option.noConfusion hcontra
      · rintro ⟨q, hq, hok⟩
        injection hq with hq2
        rw [← hq2] at hok
        rw [hok] at hr
        exact Except.noConfusion hr

/-- Witness for C10 at a concrete file system where no candidate exists: the
call returns none whatever the classifier would have done. -/
theorem single_point_never_propagates_witness :
    classifySinglePoint (fun _ => false)
        (fun _ _ => Except.error "GDAL failure") 1 2 "S1" = some [] ↔
      ∃ p, firstExisting (fun _ => false) spWudaptPaths = some p ∧
        (fun _ _ => Except.error "GDAL failure" :
          String → List StationRecord → Except String (List ClassificationResult))
          p (mkSinglePointInput 1 2 "S1") = Except.ok [] :=
  single_point_never_propagates (fun _ => false)
    (fun _ _ => Except.error "GDAL failure") 1 2 "S1" []
